import Mathlib

/-!
Verification development for a Reddit response bot (`reddit_bot_template.py`)
and its GUI lifecycle controller (`app.py`).

Strings are modelled as lists of characters (`Str`), the SQLite tables as
Lean lists, the Python `set` of processed post ids as a `Finset Nat`, and
the external collaborators (the generation API, the reply API, the random
delay) as a deterministic `Oracle` record.  Wall-clock time advances only by
the explicit `time.sleep` calls of the source; `BotState` additionally
carries ghost counters (`genCalls`, `errorLogs`, `perPostSleeps`) that count,
faithfully to the source, how often the generation call is invoked, how often
`logger.error` fires, and how often the per-post rate-limit sleep runs.
-/

namespace Reddit

abbrev Str := List Char

/-- Python `str.lower` on the modelled character list. -/
def lowerStr (s : Str) : Str := s.map Char.toLower

/-- A fetched post, read-only to the system: `post.id`, `post.title`,
`post.selftext` (absent when the object has no such attribute),
`post.created_utc`, `post.score`, `post.subreddit.display_name`. -/
structure Post where
  id : Nat
  title : Str
  selftext : Option Str
  created_utc : Int
  score : Int
  subreddit : Str
deriving DecidableEq

/-- The configuration slice the core reads: keyword list, subreddit list and
the rate-limit delays. -/
structure Config where
  keywords : List Str
  subreddits : List Str
  reddit_delay : Nat
  gemini_delay : Nat
deriving Inhabited

/-- Deterministic model of the external collaborators for one scan:
`gen p` is the outcome of `gemini_model.generate_content` (`none` = the call
raised), `delay p` the value of `random.randint(*response_delay)`, and
`reply p t` whether `post.reply(t)` succeeded. -/
structure Oracle where
  gen : Post → Option Str
  delay : Post → Nat
  reply : Post → Str → Bool

/-- `RedditBot.detect_keywords`: appends, in configuration order, every
keyword whose lowercase form occurs in the lowercase text. -/
def detect_keywords (keywords : List Str) (text : Str) : List Str :=
  keywords.filter (fun k => decide (lowerStr k <:+: lowerStr text))

/-- The deduplicated keyword match over title and (optional) body computed
by `should_respond_to_post` (`list(set(title_keywords + content_keywords))`,
modelled by `List.dedup`). -/
def matched_keywords (keywords : List Str) (post : Post) : List Str :=
  (detect_keywords keywords post.title ++
    (match post.selftext with
      | some s => detect_keywords keywords s
      | none => [])).dedup

/-- `RedditBot.should_respond_to_post`: skip if already processed; skip if
older than 3600 seconds; otherwise match keywords over title and body and
respond iff some keyword matched and the score is nonnegative. -/
def should_respond_to_post (keywords : List Str) (processed : Finset Nat)
    (now : Int) (post : Post) : Bool × List Str :=
  if post.id ∈ processed then (false, [])
  else if now - post.created_utc > 3600 then (false, [])
  else
    let all_keywords := matched_keywords keywords post
    if all_keywords ≠ [] ∧ post.score ≥ 0 then (true, all_keywords)
    else (false, [])

/-- One row of the `interactions` table, as inserted by `log_interaction`. -/
structure InteractionRec where
  timestamp : Int
  subreddit : Str
  post_id : Nat
  post_title : Str
  post_content : Str
  keywords_found : Str
  bot_response : Option Str
  response_length : Nat
  success : Bool
deriving DecidableEq

/-- The bot's mutable state threaded through a scan: the processed-post set,
the `interactions` table, the modelled wall clock (advanced by the source's
`time.sleep` calls), and ghost counters for generation-call invocations,
`logger.error` lines and per-post rate-limit sleeps. -/
structure BotState where
  processed : Finset Nat
  records : List InteractionRec
  clock : Int
  genCalls : Nat
  errorLogs : Nat
  perPostSleeps : Nat
deriving DecidableEq

/-- Advance the modelled wall clock by a `time.sleep d`. -/
def sleepSt (st : BotState) (d : Nat) : BotState := {st with clock := st.clock + d}

/-- Python truthiness of the optional response string (`if response:`):
false for `None` and for the empty string. -/
def respTruthy : Option Str → Bool
  | none => false
  | some t => !t.isEmpty

/-- `RedditBot.generate_response`: invokes the generation call once; on an
exception logs the error and returns `None`; on success sleeps
`gemini_delay` and returns the text. -/
def generate_response (cfg : Config) (ora : Oracle) (post : Post)
    (st : BotState) : BotState × Option Str :=
  let st := {st with genCalls := st.genCalls + 1}
  match ora.gen post with
  | none => ({st with errorLogs := st.errorLogs + 1}, none)
  | some t => (sleepSt st cfg.gemini_delay, some t)

/-- `RedditBot.post_response`: sleeps the randomized delay, then submits the
reply; on an exception logs the error and returns false. -/
def post_response (ora : Oracle) (post : Post) (text : Str)
    (st : BotState) : BotState × Bool :=
  let st := sleepSt st (ora.delay post)
  if ora.reply post text then (st, true)
  else ({st with errorLogs := st.errorLogs + 1}, false)

/-- `', '.join(keywords)`. -/
def commaJoin (l : List Str) : Str := (l.intersperse [',', ' ']).flatten

/-- `RedditBot.log_interaction`: appends one row to the `interactions` table,
truncating the body to its first 500 characters and comma-joining the
matched keywords; `response_length` is `len(response) if response else 0`. -/
def log_interaction (post : Post) (keywords : List Str) (response : Option Str)
    (success : Bool) (st : BotState) : BotState :=
  {st with records := st.records ++ [{
    timestamp := st.clock
    subreddit := post.subreddit
    post_id := post.id
    post_title := post.title
    post_content := (match post.selftext with | some s => s.take 500 | none => [])
    keywords_found := commaJoin keywords
    bot_response := response
    response_length := if respTruthy response then (response.getD []).length else 0
    success := success }]}

/-- Derived characterization of the branch of the per-post loop body of
`scan_subreddit` in which the reply was successfully submitted: the post was
eligible, the generation call produced a truthy (non-empty) text, and the
reply call succeeded. -/
def stepSuccess (cfg : Config) (ora : Oracle) (st : BotState) (post : Post) : Bool :=
  (should_respond_to_post cfg.keywords st.processed st.clock post).1 &&
  respTruthy (ora.gen post) &&
  ora.reply post ((ora.gen post).getD [])

/-- The body of the `for post in subreddit.new(limit=limit)` loop of
`RedditBot.scan_subreddit`, threading `(state, posts_scanned,
posts_responded)`: count the post as scanned, run the filter, if eligible run
the generator, if a truthy response text was produced run the responder and
the logger, count the post as responded and mark it processed only on
responder success, and finally sleep the per-post `reddit_delay`. -/
def process_post (cfg : Config) (ora : Oracle) :
    BotState × Nat × Nat → Post → BotState × Nat × Nat :=
  fun (st, scanned, responded) post =>
    let scanned := scanned + 1
    let sr := should_respond_to_post cfg.keywords st.processed st.clock post
    let str :=
      if sr.1 then
        let gr := generate_response cfg ora post st
        if respTruthy gr.2 then
          let text := gr.2.getD []
          let pr := post_response ora post text gr.1
          let st2 := log_interaction post sr.2 gr.2 pr.2 pr.1
          if pr.2 then
            ({st2 with processed := insert post.id st2.processed}, responded + 1)
          else (st2, responded)
        else (gr.1, responded)
      else (st, responded)
    let stF := sleepSt str.1 cfg.reddit_delay
    ({stF with perPostSleeps := stF.perPostSleeps + 1}, scanned, str.2)

/-- `RedditBot.scan_subreddit`: folds the per-post loop body over the up-to-
`limit` fetched posts with fresh counters; the Python function has no
`return` statement, so its value is `none` (the implicit `None`) rather than
the counter pair, which is only written to the log. -/
def scan_subreddit (cfg : Config) (ora : Oracle) (posts : List Post)
    (limit : Nat) (st : BotState) : BotState × Nat × Nat × Option (Nat × Nat) :=
  let r := (posts.take limit).foldl (process_post cfg ora) (st, 0, 0)
  (r.1, r.2.1, r.2.2, none)

/-- `RedditBot.run_hourly_scan`: scans each configured subreddit in order
with a per-cycle post limit of 25; `postsOf` gives the posts the platform
returns for each subreddit during this cycle. -/
def run_hourly_scan (cfg : Config) (ora : Oracle) (postsOf : Str → List Post)
    (st : BotState) : BotState :=
  cfg.subreddits.foldl
    (fun st name => (scan_subreddit cfg ora (postsOf name) 25 st).1) st

/-- Python `str.strip` (leading and trailing whitespace removed). -/
def strip (s : Str) : Str :=
  ((s.dropWhile Char.isWhitespace).reverse.dropWhile Char.isWhitespace).reverse

/-- Python `str.split(",")`: splits at every comma, keeping empty pieces
(`"".split(",") == [""]`). -/
def splitOnComma : Str → List Str
  | [] => [[]]
  | c :: rest =>
    match splitOnComma rest with
    | [] => [[]]
    | g :: gs => if c = ',' then [] :: g :: gs else (c :: g) :: gs

/-- The keyword parsing in `BotApp.start_bot`: the textbox content is
stripped, split on commas, each piece stripped, empty pieces dropped. -/
def parse_keywords (raw : Str) : List Str :=
  ((splitOnComma (strip raw)).map strip).filter (fun k => !k.isEmpty)

/-- Python `str.isdigit` (restricted to ASCII digits). -/
def isDigits (s : Str) : Bool := !s.isEmpty && s.all Char.isDigit

/-- Python `int` on a digit string. -/
def digitsToNat (s : Str) : Nat :=
  s.foldl (fun a c => a * 10 + (c.toNat - '0'.toNat)) 0

/-- The cycle-delay computation in `BotApp.start_bot`: a positive integer
interval override wins; otherwise 3600 for hourly mode, a week otherwise. -/
def compute_cycle_delay (mode intervalStr : Str) : Nat :=
  if isDigits intervalStr ∧ digitsToNat intervalStr > 0 then digitsToNat intervalStr
  else if mode = 'h' :: 'o' :: 'u' :: 'r' :: 'l' :: 'y' :: [] then 3600
  else 7 * 24 * 3600

/-- The GUI controller state the lifecycle claims observe: the running flag
and whether a worker thread has been created. -/
structure AppState where
  is_running : Bool
  workerCreated : Bool
deriving DecidableEq

/-- Outcome of a `start_bot` call as surfaced to the operator. -/
inductive StartOutcome
  | alreadyRunning
  | inputError
  | started (keywords : List Str) (cycle_delay : Nat)
deriving DecidableEq

/-- `BotApp.start_bot`: rejects when already running; parses the keyword
textbox and rejects with an input error, touching nothing, when no keyword
remains; otherwise computes the cycle delay, creates the worker thread and
transitions to running. -/
def start_bot (st : AppState) (kwRaw mode intervalStr : Str) :
    AppState × StartOutcome :=
  if st.is_running then (st, .alreadyRunning)
  else
    let keywords := parse_keywords kwRaw
    if keywords.isEmpty then (st, .inputError)
    else
      ({is_running := true, workerCreated := true},
        .started keywords (compute_cycle_delay mode intervalStr))

/-- Result of the inter-cycle wait loop of `BotApp._run_loop`: how many
1-second sleeps ran, at which elapsed seconds a heartbeat line was emitted,
and whether the loop exited through the stop-signal `break`. -/
structure WaitResult where
  sleeps : Nat
  heartbeatTimes : List Nat
  stoppedEarly : Bool
deriving DecidableEq

/-- The body of `for _ in range(delay)` in `BotApp._run_loop`, starting at
iteration `i` with `rem` iterations remaining: check the stop signal (break
if set), emit a heartbeat when `i % 60 == 0`, sleep one second. `stop i`
tells whether the stop event is set when check `i` happens. -/
def waitLoopGo (stop : Nat → Bool) : Nat → Nat → WaitResult
  | _, 0 => ⟨0, [], false⟩
  | i, rem + 1 =>
    if stop i then ⟨0, [], true⟩
    else
      let w := waitLoopGo stop (i + 1) rem
      ⟨w.sleeps + 1,
        (if i % 60 = 0 then [i] else []) ++ w.heartbeatTimes,
        w.stoppedEarly⟩

/-- The inter-cycle wait of `BotApp._run_loop`: `delay` iterations of
check-stop / heartbeat / sleep-1s. -/
def waitLoop (stop : Nat → Bool) (delay : Nat) : WaitResult :=
  waitLoopGo stop 0 delay

/-- The resources owned by the bot session; `RedditBot.cleanup` closes the
storage connection. -/
structure BotRes where
  connOpen : Bool
deriving DecidableEq

/-- `RedditBot.cleanup`: closes the storage connection. -/
def cleanup (b : BotRes) : BotRes := {b with connOpen := false}

/-- Lifecycle Controller states. -/
inductive LCState
  | RUNNING
  | STOPPED
deriving DecidableEq

/-- How the `while` loop of `BotApp._run_loop` exited: via the stop signal
observed at a `while` check, via an uncaught error escaping the cycle (the
`except` path), or not at all within the modelled fuel. `cyclesRun` counts
how many `run_hourly_scan` calls were made. -/
inductive LoopExit
  | stoppedExit (cyclesRun : Nat)
  | erroredExit (cyclesRun : Nat)
  | outOfFuel
deriving DecidableEq

/-- The iteration structure of `BotApp._run_loop`'s `while` loop: at check
`n`, exit if the stop signal is observed; otherwise run cycle `n`, exiting
through the exception handler if it raises. `stop n` abstracts whether the
stop event is set by the time of the `n`-th `while` check (a stop set
mid-wait breaks the wait and is then seen here). -/
def runLoopGo (cycles : Nat → Except Unit Unit) (stop : Nat → Bool) :
    Nat → Nat → LoopExit
  | _, 0 => .outOfFuel
  | n, fuel + 1 =>
    if stop n then .stoppedExit n
    else match cycles n with
      | .error _ => .erroredExit (n + 1)
      | .ok _ => runLoopGo cycles stop (n + 1) fuel

/-- Final controller state after `_run_loop`'s `finally` block. -/
structure FinalState where
  bot : BotRes
  is_running : Bool
  status : LCState
  cyclesRun : Nat
deriving DecidableEq

/-- The unconditional `finally` block of `BotApp._run_loop`: on either exit
path it calls `RedditBot.cleanup` and transitions the controller to STOPPED.
`none` only when the modelled fuel ran out before the loop exited. -/
def finalize (b : BotRes) : LoopExit → Option FinalState
  | .outOfFuel => none
  | .stoppedExit n => some ⟨cleanup b, false, .STOPPED, n⟩
  | .erroredExit n => some ⟨cleanup b, false, .STOPPED, n⟩

/-- `BotApp._run_loop`: the `while not stop_event.is_set()` loop followed by
the unconditional finalizer. -/
def run_loop (cycles : Nat → Except Unit Unit) (stop : Nat → Bool)
    (b : BotRes) (fuel : Nat) : Option FinalState :=
  finalize b (runLoopGo cycles stop 0 fuel)

/-- One row of the (never populated) `performance_metrics` table. -/
structure PerfRec where
  timestamp : Int
  total_posts_scanned : Nat
  posts_responded_to : Nat
  response_rate : Rat
  average_response_time : Rat
deriving DecidableEq

/-- The local store: the two tables created by `setup_database`. -/
structure Db where
  interactions : List InteractionRec
  performance_metrics : List PerfRec
deriving DecidableEq

/-- `BotApp.clear_db` (the confirmed path): `DELETE FROM interactions` and
`DELETE FROM performance_metrics`. A total function: the Python handler
catches storage errors and never propagates them to the caller. -/
def clear_db (db : Db) : Db :=
  { interactions := [], performance_metrics := [] }

/-- Count of interaction rows recorded for a given post id. -/
def countRecs (recs : List InteractionRec) (i : Nat) : Nat :=
  recs.countP (fun rec => rec.post_id == i)

/-- Test fixture: a fresh post whose title matches the single configured
keyword and whose score is zero. -/
def postA : Post := ⟨1, ['h'], none, 0, 0, []⟩

/-- Test fixture: the initial bot state of a fresh run. -/
def st0 : BotState := ⟨∅, [], 0, 0, 0, 0⟩

/-- Test fixture: a configuration with one keyword, one subreddit and the
default delays. -/
def cfgT : Config := ⟨[['h']], [['s']], 2, 12⟩

/-- Test fixture: external collaborators whose generation call fails. -/
def oraFailGen : Oracle := ⟨fun _ => none, fun _ => 0, fun _ _ => false⟩

/-- Test fixture: external collaborators whose generation call returns the
empty string. -/
def oraEmptyGen : Oracle := ⟨fun _ => some [], fun _ => 0, fun _ _ => true⟩

/-- Test fixture: generation succeeds, reply submission fails. -/
def oraOkFailReply : Oracle :=
  ⟨fun _ => some ['o', 'k'], fun _ => 3, fun _ _ => false⟩

/-- Test fixture: generation succeeds and reply submission succeeds. -/
def oraOkReply : Oracle :=
  ⟨fun _ => some ['o', 'k'], fun _ => 3, fun _ _ => true⟩

/-- Claim C2, counterexample: `detect_keywords` is `List.filter` over the
keyword list, so a duplicated keyword yields a duplicated result entry, and
the empty keyword is a substring of the empty text, so empty text does not
always yield an empty result. -/
theorem C2_counterexample :
    ¬ (detect_keywords [['a'], ['a']] ['a']).Nodup ∧
    detect_keywords [[]] [] ≠ [] := by
  decide

/-- Claim C2 (amended): for all texts T and keyword lists K, `detect(T,K)`
is a subset of K in which a keyword appears iff it is in K and its lowercase
form is a substring of T's lowercase form; the result has no duplicates
provided K has none; permuting the order in which keywords are checked only
permutes the result (same result set); an empty keyword list yields an empty
result, and empty text yields an empty result provided every keyword is
non-empty. -/
theorem C2_detect_keywords_characterization :
    ∀ (T : Str) (K : List Str),
    detect_keywords K T ⊆ K ∧
    (∀ k, k ∈ detect_keywords K T ↔ k ∈ K ∧ lowerStr k <:+: lowerStr T) ∧
    (K.Nodup → (detect_keywords K T).Nodup) ∧
    (∀ K2, K.Perm K2 → (detect_keywords K T).Perm (detect_keywords K2 T)) ∧
    detect_keywords [] T = [] ∧
    ((∀ k ∈ K, k ≠ []) → detect_keywords K [] = []) := by
  intro T K
  refine ⟨fun k hk => (List.mem_filter.mp hk).1, ?_, ?_, ?_, rfl, ?_⟩
  · intro k
    simp [detect_keywords, List.mem_filter]
  · intro h
    exact h.filter _
  · intro K2 h
    exact h.filter _
  · intro h
    apply List.filter_eq_nil_iff.mpr
    intro k hk
    simp only [decide_eq_true_eq]
    intro hinf
    have h0 : lowerStr k = [] := by
      have := List.eq_nil_of_infix_nil hinf
      simpa [lowerStr] using this
    exact h k hk (List.map_eq_nil_iff.mp h0)

/-- Closed witness for the amended C2 theorem at concrete inputs. -/
theorem C2_witness :
    (detect_keywords [['h'], ['x']] ['h', 'i']).Nodup ∧
    (detect_keywords [['h'], ['x']] ['h', 'i']).Perm
      (detect_keywords [['x'], ['h']] ['h', 'i']) ∧
    detect_keywords [['h'], ['x']] [] = [] := by
  obtain ⟨-, -, h3, h4, -, h6⟩ :=
    C2_detect_keywords_characterization ['h', 'i'] [['h'], ['x']]
  exact ⟨h3 (by decide), h4 _ (by decide), h6 (by decide)⟩

/-- Claim C1: `should_respond_to_post` applies its rules short-circuit in
order: an already-processed id gives `(false, [])` for every keyword list
(no keyword computation); a post older than 3600 seconds gives
`(false, [])`; otherwise the deduplicated keyword match over title and body
decides eligibility together with `score >= 0`; an ineligible post always
comes with an empty keyword collection. -/
theorem C1_should_respond_order :
    ∀ (keywords : List Str) (processed : Finset Nat) (now : Int) (post : Post),
    (post.id ∈ processed →
      should_respond_to_post keywords processed now post = (false, [])) ∧
    (post.id ∉ processed → now - post.created_utc > 3600 →
      should_respond_to_post keywords processed now post = (false, [])) ∧
    (post.id ∉ processed → ¬ (now - post.created_utc > 3600) →
      (should_respond_to_post keywords processed now post =
        (if matched_keywords keywords post ≠ [] ∧ post.score ≥ 0
          then (true, matched_keywords keywords post) else (false, []))) ∧
      (matched_keywords keywords post).Nodup ∧
      (∀ k, k ∈ matched_keywords keywords post ↔
        k ∈ detect_keywords keywords post.title ∨
        k ∈ (match post.selftext with
              | some s => detect_keywords keywords s
              | none => ([] : List Str)))) ∧
    ((should_respond_to_post keywords processed now post).1 = false →
      (should_respond_to_post keywords processed now post).2 = []) := by
  intro keywords processed now post
  refine ⟨?_, ?_, ?_, ?_⟩
  · intro h
    simp [should_respond_to_post, h]
  · intro h1 h2
    simp [should_respond_to_post, h1, h2]
  · intro h1 h2
    refine ⟨?_, List.nodup_dedup _, ?_⟩
    · simp [should_respond_to_post, h1, h2]
    · intro k
      simp [matched_keywords, List.mem_dedup, List.mem_append]
  · intro h
    by_cases h1 : post.id ∈ processed
    · simp [should_respond_to_post, h1]
    · by_cases h2 : now - post.created_utc > 3600
      · simp [should_respond_to_post, h1, h2]
      · simp only [should_respond_to_post, h1, h2, if_false, if_neg] at h ⊢
        split at h
        · simp_all
        · split
          · simp_all
          · rfl

/-- Closed witness for C1: the three short-circuit outcomes at concrete
posts (already processed; too old; fresh with a keyword match). -/
theorem C1_witness :
    should_respond_to_post [['h']] {5} 0 ⟨5, ['h'], none, 0, 0, []⟩ = (false, []) ∧
    should_respond_to_post [['h']] ∅ 5000 ⟨1, ['h'], none, 0, 0, []⟩ = (false, []) ∧
    should_respond_to_post [['h']] ∅ 0 ⟨1, ['h'], none, 0, 0, []⟩ = (true, [['h']]) := by
  refine ⟨(C1_should_respond_order [['h']] {5} 0 ⟨5, ['h'], none, 0, 0, []⟩).1 (by decide),
    (C1_should_respond_order [['h']] ∅ 5000 ⟨1, ['h'], none, 0, 0, []⟩).2.1
      (by decide) (by decide), ?_⟩
  have h := (C1_should_respond_order [['h']] ∅ 0 ⟨1, ['h'], none, 0, 0, []⟩).2.2.1
    (by decide) (by decide)
  exact h.1.trans (by decide)

theorem processPost_scanned (cfg : Config) (ora : Oracle) (st : BotState)
    (s r : Nat) (p : Post) :
    (process_post cfg ora (st, s, r) p).2.1 = s + 1 := rfl

theorem processPost_eligible_genFail (cfg : Config) (ora : Oracle)
    (st : BotState) (s r : Nat) (p : Post)
    (hel : (should_respond_to_post cfg.keywords st.processed st.clock p).1 = true)
    (hg : ora.gen p = none) :
    process_post cfg ora (st, s, r) p =
      ({st with genCalls := st.genCalls + 1,
                errorLogs := st.errorLogs + 1,
                clock := st.clock + cfg.reddit_delay,
                perPostSleeps := st.perPostSleeps + 1}, s + 1, r) := by
  simp [process_post, generate_response, hel, hg, respTruthy, sleepSt]

theorem processPost_eligible_genOk (cfg : Config) (ora : Oracle)
    (st : BotState) (s r : Nat) (p : Post) (kws : List Str) (t : Str)
    (hel : should_respond_to_post cfg.keywords st.processed st.clock p = (true, kws))
    (hg : ora.gen p = some t) (ht : t ≠ []) :
    process_post cfg ora (st, s, r) p =
      ({ processed := if ora.reply p t then insert p.id st.processed
                      else st.processed,
         records := st.records ++
           [{ timestamp := st.clock + cfg.gemini_delay + ora.delay p,
              subreddit := p.subreddit,
              post_id := p.id,
              post_title := p.title,
              post_content := (match p.selftext with
                                | some s => s.take 500
                                | none => []),
              keywords_found := commaJoin kws,
              bot_response := some t,
              response_length := t.length,
              success := ora.reply p t }],
         clock := st.clock + cfg.gemini_delay + ora.delay p + cfg.reddit_delay,
         genCalls := st.genCalls + 1,
         errorLogs := if ora.reply p t then st.errorLogs else st.errorLogs + 1,
         perPostSleeps := st.perPostSleeps + 1 },
       s + 1, if ora.reply p t then r + 1 else r) := by
  have hte : t.isEmpty = false := by
    cases t
    · exact absurd rfl ht
    · rfl
  cases hr : ora.reply p t <;>
    simp [process_post, generate_response, post_response, log_interaction,
      hel, hg, hr, hte, respTruthy, sleepSt]

theorem processPost_ineligible (cfg : Config) (ora : Oracle)
    (st : BotState) (s r : Nat) (p : Post)
    (hel : (should_respond_to_post cfg.keywords st.processed st.clock p).1 = false) :
    process_post cfg ora (st, s, r) p =
      ({st with clock := st.clock + cfg.reddit_delay,
                perPostSleeps := st.perPostSleeps + 1}, s + 1, r) := by
  simp [process_post, hel, sleepSt]

theorem processPost_eligible_genEmpty (cfg : Config) (ora : Oracle)
    (st : BotState) (s r : Nat) (p : Post)
    (hel : (should_respond_to_post cfg.keywords st.processed st.clock p).1 = true)
    (hg : ora.gen p = some []) :
    process_post cfg ora (st, s, r) p =
      ({st with genCalls := st.genCalls + 1,
                clock := st.clock + cfg.gemini_delay + cfg.reddit_delay,
                perPostSleeps := st.perPostSleeps + 1}, s + 1, r) := by
  simp [process_post, generate_response, hel, hg, respTruthy, sleepSt]

theorem processPost_responded_iff (cfg : Config) (ora : Oracle)
    (st : BotState) (s r : Nat) (p : Post) :
    (process_post cfg ora (st, s, r) p).2.2 =
      (if stepSuccess cfg ora st p then r + 1 else r) := by
  by_cases hel : (should_respond_to_post cfg.keywords st.processed st.clock p).1 = true
  · cases hg : ora.gen p with
    | none =>
      rw [processPost_eligible_genFail cfg ora st s r p hel hg]
      simp [stepSuccess, hel, hg, respTruthy]
    | some t =>
      cases t with
      | nil =>
        rw [processPost_eligible_genEmpty cfg ora st s r p hel hg]
        simp [stepSuccess, hel, hg, respTruthy]
      | cons c ts =>
        have hel' : should_respond_to_post cfg.keywords st.processed st.clock p =
            (true, (should_respond_to_post cfg.keywords st.processed st.clock p).2) := by
          rw [← hel]
        rw [processPost_eligible_genOk cfg ora st s r p _ (c :: ts) hel' hg
          (by simp)]
        simp [stepSuccess, hel, hg, respTruthy]
  · have hel' : (should_respond_to_post cfg.keywords st.processed st.clock p).1 = false := by
      simpa using hel
    rw [processPost_ineligible cfg ora st s r p hel']
    simp [stepSuccess, hel']

theorem processPost_processed_iff (cfg : Config) (ora : Oracle)
    (st : BotState) (s r : Nat) (p : Post) :
    (process_post cfg ora (st, s, r) p).1.processed =
      (if stepSuccess cfg ora st p then insert p.id st.processed
       else st.processed) := by
  by_cases hel : (should_respond_to_post cfg.keywords st.processed st.clock p).1 = true
  · cases hg : ora.gen p with
    | none =>
      rw [processPost_eligible_genFail cfg ora st s r p hel hg]
      simp [stepSuccess, hel, hg, respTruthy]
    | some t =>
      cases t with
      | nil =>
        rw [processPost_eligible_genEmpty cfg ora st s r p hel hg]
        simp [stepSuccess, hel, hg, respTruthy]
      | cons c ts =>
        have hel' : should_respond_to_post cfg.keywords st.processed st.clock p =
            (true, (should_respond_to_post cfg.keywords st.processed st.clock p).2) := by
          rw [← hel]
        rw [processPost_eligible_genOk cfg ora st s r p _ (c :: ts) hel' hg
          (by simp)]
        simp [stepSuccess, hel, hg, respTruthy]
  · have hel' : (should_respond_to_post cfg.keywords st.processed st.clock p).1 = false := by
      simpa using hel
    rw [processPost_ineligible cfg ora st s r p hel']
    simp [stepSuccess, hel']

theorem processPost_perPost (cfg : Config) (ora : Oracle)
    (st : BotState) (s r : Nat) (p : Post) :
    (process_post cfg ora (st, s, r) p).1.perPostSleeps =
      st.perPostSleeps + 1 := by
  by_cases hel : (should_respond_to_post cfg.keywords st.processed st.clock p).1 = true
  · cases hg : ora.gen p with
    | none =>
      rw [processPost_eligible_genFail cfg ora st s r p hel hg]
    | some t =>
      cases t with
      | nil =>
        rw [processPost_eligible_genEmpty cfg ora st s r p hel hg]
      | cons c ts =>
        have hel' : should_respond_to_post cfg.keywords st.processed st.clock p =
            (true, (should_respond_to_post cfg.keywords st.processed st.clock p).2) := by
          rw [← hel]
        rw [processPost_eligible_genOk cfg ora st s r p _ (c :: ts) hel' hg
          (by simp)]
  · have hel' : (should_respond_to_post cfg.keywords st.processed st.clock p).1 = false := by
      simpa using hel
    rw [processPost_ineligible cfg ora st s r p hel']

theorem processPost_processed_mono (cfg : Config) (ora : Oracle)
    (st : BotState) (s r : Nat) (p : Post) :
    st.processed ⊆ (process_post cfg ora (st, s, r) p).1.processed := by
  rw [processPost_processed_iff]
  split
  · exact Finset.subset_insert _ _
  · exact Finset.Subset.refl _

theorem scanFold_scanned (cfg : Config) (ora : Oracle) :
    ∀ (l : List Post) (st : BotState) (s r : Nat),
    (l.foldl (process_post cfg ora) (st, s, r)).2.1 = s + l.length := by
  intro l
  induction l with
  | nil => intro st s r; simp
  | cons p tl ih =>
    intro st s r
    rcases hp : process_post cfg ora (st, s, r) p with ⟨st1, s1, r1⟩
    have hs : s1 = s + 1 := by
      have := processPost_scanned cfg ora st s r p
      rw [hp] at this
      exact this
    simp only [List.foldl_cons, hp, ih, List.length_cons]
    omega

theorem scanFold_perPost (cfg : Config) (ora : Oracle) :
    ∀ (l : List Post) (st : BotState) (s r : Nat),
    (l.foldl (process_post cfg ora) (st, s, r)).1.perPostSleeps =
      st.perPostSleeps + l.length := by
  intro l
  induction l with
  | nil => intro st s r; simp
  | cons p tl ih =>
    intro st s r
    rcases hp : process_post cfg ora (st, s, r) p with ⟨st1, s1, r1⟩
    have hs : st1.perPostSleeps = st.perPostSleeps + 1 := by
      have := processPost_perPost cfg ora st s r p
      rw [hp] at this
      exact this
    simp only [List.foldl_cons, hp, ih, List.length_cons, hs]
    omega

theorem scanFold_processed_mono (cfg : Config) (ora : Oracle) :
    ∀ (l : List Post) (st : BotState) (s r : Nat),
    st.processed ⊆ (l.foldl (process_post cfg ora) (st, s, r)).1.processed := by
  intro l
  induction l with
  | nil => intro st s r; simp
  | cons p tl ih =>
    intro st s r
    rcases hp : process_post cfg ora (st, s, r) p with ⟨st1, s1, r1⟩
    have h1 : st.processed ⊆ st1.processed := by
      have := processPost_processed_mono cfg ora st s r p
      rw [hp] at this
      exact this
    simp only [List.foldl_cons, hp]
    exact h1.trans (ih st1 s1 r1)

/-- Claim C3: when the generation call fails for an eligible post,
`generate_response` returns the failure sentinel `none` after logging the
error, the per-post step writes no interaction record, leaves the
processed-post set unchanged (so a still-fresh post can be retried on a
later cycle), invokes the generation call exactly once (no retry within the
cycle), and does not count the post as responded. -/
theorem C3_generation_failure_skips :
    ∀ (cfg : Config) (ora : Oracle) (st : BotState) (s r : Nat) (p : Post),
    (should_respond_to_post cfg.keywords st.processed st.clock p).1 = true →
    ora.gen p = none →
    (generate_response cfg ora p st).2 = none ∧
    (generate_response cfg ora p st).1.errorLogs = st.errorLogs + 1 ∧
    (process_post cfg ora (st, s, r) p).1.records = st.records ∧
    (process_post cfg ora (st, s, r) p).1.processed = st.processed ∧
    (process_post cfg ora (st, s, r) p).1.genCalls = st.genCalls + 1 ∧
    (process_post cfg ora (st, s, r) p).1.errorLogs = st.errorLogs + 1 ∧
    (process_post cfg ora (st, s, r) p).2.2 = r := by
  intro cfg ora st s r p hel hg
  rw [processPost_eligible_genFail cfg ora st s r p hel hg]
  simp [generate_response, hg]

/-- Closed witness for C3 at a concrete eligible post with a failing
generation call. -/
theorem C3_witness :
    (generate_response cfgT oraFailGen postA st0).2 = none ∧
    (process_post cfgT oraFailGen (st0, 0, 0) postA).1.records = st0.records ∧
    (process_post cfgT oraFailGen (st0, 0, 0) postA).1.processed = st0.processed ∧
    (process_post cfgT oraFailGen (st0, 0, 0) postA).1.genCalls = st0.genCalls + 1 := by
  have h := C3_generation_failure_skips cfgT oraFailGen st0 0 0 postA (by decide) rfl
  exact ⟨h.1, h.2.2.1, h.2.2.2.1, h.2.2.2.2.1⟩

/-- Claim C4, counterexample: `scan_subreddit` has no `return` statement —
its value is `None`, not the `(scanned, responded)` pair, which is only
written to the log. -/
theorem C4_counterexample :
    (scan_subreddit cfgT oraFailGen [postA] 10 st0).2.2.2 ≠
      some ((scan_subreddit cfgT oraFailGen [postA] 10 st0).2.1,
            (scan_subreddit cfgT oraFailGen [postA] 10 st0).2.2.1) := by
  simp [scan_subreddit]

/-- Claim C4 (amended): `scan_subreddit` processes up to `limit` fetched
posts, counts every fetched post as scanned regardless of eligibility,
counts a post as responded exactly when the responder reported success,
sleeps the fixed per-post delay after each post regardless of outcome, and
logs the counter pair rather than returning it (its return value is the
implicit `None`). -/
theorem C4_scan_counts :
    ∀ (cfg : Config) (ora : Oracle) (posts : List Post) (limit : Nat)
      (st : BotState),
    (scan_subreddit cfg ora posts limit st).2.1 = (posts.take limit).length ∧
    (scan_subreddit cfg ora posts limit st).2.1 ≤ limit ∧
    (scan_subreddit cfg ora posts limit st).1.perPostSleeps =
      st.perPostSleeps + (scan_subreddit cfg ora posts limit st).2.1 ∧
    (scan_subreddit cfg ora posts limit st).2.2.2 = none ∧
    (∀ (st2 : BotState) (s r : Nat) (p : Post),
      (process_post cfg ora (st2, s, r) p).2.2 =
        (if stepSuccess cfg ora st2 p then r + 1 else r) ∧
      (process_post cfg ora (st2, s, r) p).2.1 = s + 1) := by
  intro cfg ora posts limit st
  have hs := scanFold_scanned cfg ora (posts.take limit) st 0 0
  have hp := scanFold_perPost cfg ora (posts.take limit) st 0 0
  refine ⟨?_, ?_, ?_, rfl,
    fun st2 s r p => ⟨processPost_responded_iff cfg ora st2 s r p,
      processPost_scanned cfg ora st2 s r p⟩⟩
  · simpa [scan_subreddit] using hs
  · have : (posts.take limit).length ≤ limit := by
      simp [List.length_take]
    simp only [scan_subreddit, hs]
    omega
  · simp only [scan_subreddit, hp, hs]
    omega

/-- Claim C5, counterexample: an eligible post for which the generation call
produced the empty string is a post "for which a response text was
produced", yet the truthiness test `if response:` skips the responder and
the logger, so no interaction record is appended. -/
theorem C5_counterexample :
    oraEmptyGen.gen postA = some [] ∧
    (should_respond_to_post cfgT.keywords st0.processed st0.clock postA).1 = true ∧
    (process_post cfgT oraEmptyGen (st0, 0, 0) postA).1.records = [] := by
  decide

/-- Claim C5 (amended): for every eligible post for which a non-empty
response text was produced, exactly one interaction record is appended
regardless of whether the responder succeeded, with the success flag
recording the responder's outcome, the body truncated to its first 500
characters, and the matched keywords comma-joined; and `log_interaction`
called with an absent response records `response_length = 0`. -/
theorem C5_log_record :
    ∀ (cfg : Config) (ora : Oracle) (st : BotState) (s r : Nat) (p : Post)
      (kws : List Str) (t : Str),
    should_respond_to_post cfg.keywords st.processed st.clock p = (true, kws) →
    ora.gen p = some t → t ≠ [] →
    ((process_post cfg ora (st, s, r) p).1.records =
      st.records ++
        [{ timestamp := st.clock + cfg.gemini_delay + ora.delay p,
           subreddit := p.subreddit, post_id := p.id, post_title := p.title,
           post_content := (match p.selftext with
                             | some s => s.take 500
                             | none => []),
           keywords_found := commaJoin kws,
           bot_response := some t,
           response_length := t.length,
           success := ora.reply p t }] ∧
     (∀ (p2 : Post) (kws2 : List Str) (suc : Bool) (st2 : BotState),
       (log_interaction p2 kws2 none suc st2).records =
         st2.records ++
           [{ timestamp := st2.clock, subreddit := p2.subreddit,
              post_id := p2.id, post_title := p2.title,
              post_content := (match p2.selftext with
                                | some s => s.take 500
                                | none => []),
              keywords_found := commaJoin kws2, bot_response := none,
              response_length := 0, success := suc }])) := by
  intro cfg ora st s r p kws t hel hg ht
  constructor
  · rw [processPost_eligible_genOk cfg ora st s r p kws t hel hg ht]
  · intro p2 kws2 suc st2
    simp [log_interaction, respTruthy]

/-- Closed witness for the amended C5 theorem: a failed reply still appends
exactly one record, and its success flag is false. -/
theorem C5_witness :
    (process_post cfgT oraOkFailReply (st0, 0, 0) postA).1.records.length = 1 ∧
    (process_post cfgT oraOkFailReply (st0, 0, 0) postA).1.records.map
      InteractionRec.success = [false] := by
  have h := C5_log_record cfgT oraOkFailReply st0 0 0 postA [['h']] ['o', 'k']
    (by decide) rfl (by decide)
  rw [h.1]
  exact ⟨rfl, rfl⟩

theorem processPost_replyFail (cfg : Config) (ora : Oracle) (st : BotState)
    (s r : Nat) (p : Post) (kws : List Str) (t : Str)
    (hel : should_respond_to_post cfg.keywords st.processed st.clock p = (true, kws))
    (hg : ora.gen p = some t) (ht : t ≠ []) (hrep : ora.reply p t = false) :
    (process_post cfg ora (st, s, r) p).1.processed = st.processed ∧
    (process_post cfg ora (st, s, r) p).1.records =
      st.records ++
        [{ timestamp := st.clock + cfg.gemini_delay + ora.delay p,
           subreddit := p.subreddit, post_id := p.id, post_title := p.title,
           post_content := (match p.selftext with
                             | some s => s.take 500
                             | none => []),
           keywords_found := commaJoin kws, bot_response := some t,
           response_length := t.length, success := false }] ∧
    (process_post cfg ora (st, s, r) p).2.2 = r := by
  rw [processPost_eligible_genOk cfg ora st s r p kws t hel hg ht]
  simp [hrep]

theorem processPost_replySucc (cfg : Config) (ora : Oracle) (st : BotState)
    (s r : Nat) (p : Post) (kws : List Str) (t : Str)
    (hel : should_respond_to_post cfg.keywords st.processed st.clock p = (true, kws))
    (hg : ora.gen p = some t) (ht : t ≠ []) (hrep : ora.reply p t = true) :
    (process_post cfg ora (st, s, r) p).1.processed = insert p.id st.processed ∧
    (process_post cfg ora (st, s, r) p).1.records =
      st.records ++
        [{ timestamp := st.clock + cfg.gemini_delay + ora.delay p,
           subreddit := p.subreddit, post_id := p.id, post_title := p.title,
           post_content := (match p.selftext with
                             | some s => s.take 500
                             | none => []),
           keywords_found := commaJoin kws, bot_response := some t,
           response_length := t.length, success := true }] ∧
    (process_post cfg ora (st, s, r) p).2.2 = r + 1 := by
  rw [processPost_eligible_genOk cfg ora st s r p kws t hel hg ht]
  simp [hrep]

theorem countRecs_append_hit (recs : List InteractionRec) (rec : InteractionRec)
    (i : Nat) (h : rec.post_id = i) :
    countRecs (recs ++ [rec]) i = countRecs recs i + 1 := by
  simp [countRecs, List.countP_append, h]

theorem runScan_processed_mono (cfg : Config) (ora : Oracle)
    (postsOf : Str → List Post) :
    ∀ st : BotState, st.processed ⊆ (run_hourly_scan cfg ora postsOf st).processed := by
  unfold run_hourly_scan
  generalize cfg.subreddits = l
  induction l with
  | nil => intro st; simp
  | cons a tl ih =>
    intro st
    simp only [List.foldl_cons]
    refine Finset.Subset.trans ?_ (ih _)
    have := scanFold_processed_mono cfg ora ((postsOf a).take 25) st 0 0
    simpa [scan_subreddit] using this

/-- Claim C10: during a run the processed-post set only grows (per post
step, per subreddit scan and per full cycle no identifier is removed), an
identifier is added in a step exactly when the responder reported success
for that post, and consequently a post whose reply submission failed stays
outside the set, so while still within the age window it can be processed
again on a later cycle and produce an additional interaction record for the
same post id. -/
theorem C10_processed_set_growth :
    (∀ (cfg : Config) (ora : Oracle) (posts : List Post) (limit : Nat)
       (st : BotState),
      st.processed ⊆ (scan_subreddit cfg ora posts limit st).1.processed) ∧
    (∀ (cfg : Config) (ora : Oracle) (postsOf : Str → List Post) (st : BotState),
      st.processed ⊆ (run_hourly_scan cfg ora postsOf st).processed) ∧
    (∀ (cfg : Config) (ora : Oracle) (st : BotState) (s r : Nat) (p : Post),
      (process_post cfg ora (st, s, r) p).1.processed =
        (if stepSuccess cfg ora st p then insert p.id st.processed
         else st.processed)) ∧
    (∀ (cfg : Config) (ora1 ora2 : Oracle) (st : BotState) (s r s2 r2 : Nat)
       (p : Post) (kws1 kws2 : List Str) (t1 t2 : Str),
      should_respond_to_post cfg.keywords st.processed st.clock p = (true, kws1) →
      ora1.gen p = some t1 → t1 ≠ [] → ora1.reply p t1 = false →
      (process_post cfg ora1 (st, s, r) p).1.processed = st.processed ∧
      countRecs (process_post cfg ora1 (st, s, r) p).1.records p.id =
        countRecs st.records p.id + 1 ∧
      (should_respond_to_post cfg.keywords
          (process_post cfg ora1 (st, s, r) p).1.processed
          (process_post cfg ora1 (st, s, r) p).1.clock p = (true, kws2) →
       ora2.gen p = some t2 → t2 ≠ [] → ora2.reply p t2 = true →
       p.id ∈ (process_post cfg ora2
         ((process_post cfg ora1 (st, s, r) p).1, s2, r2) p).1.processed ∧
       countRecs (process_post cfg ora2
           ((process_post cfg ora1 (st, s, r) p).1, s2, r2) p).1.records p.id =
         countRecs st.records p.id + 2)) := by
  refine ⟨?_, ?_, ?_, ?_⟩
  · intro cfg ora posts limit st
    have := scanFold_processed_mono cfg ora (posts.take limit) st 0 0
    simpa [scan_subreddit] using this
  · intro cfg ora postsOf st
    exact runScan_processed_mono cfg ora postsOf st
  · intro cfg ora st s r p
    exact processPost_processed_iff cfg ora st s r p
  · intro cfg ora1 ora2 st s r s2 r2 p kws1 kws2 t1 t2 hel1 hg1 ht1 hrep1
    obtain ⟨hpr1, hrec1, -⟩ :=
      processPost_replyFail cfg ora1 st s r p kws1 t1 hel1 hg1 ht1 hrep1
    refine ⟨hpr1, ?_, ?_⟩
    · rw [hrec1]
      exact countRecs_append_hit _ _ _ rfl
    · intro hel2 hg2 ht2 hrep2
      obtain ⟨hpr2, hrec2, -⟩ :=
        processPost_replySucc cfg ora2 _ s2 r2 p kws2 t2 hel2 hg2 ht2 hrep2
      refine ⟨?_, ?_⟩
      · rw [hpr2]
        exact Finset.mem_insert_self _ _
      · rw [hrec2, countRecs_append_hit _ _ _ rfl, hrec1,
          countRecs_append_hit _ _ _ rfl]

/-- Closed witness for C10: at a concrete post, a failed reply adds the
record but not the id, and a later successful pass over the same post adds
the id and a second record. -/
theorem C10_witness :
    (process_post cfgT oraOkFailReply (st0, 0, 0) postA).1.processed = st0.processed ∧
    countRecs (process_post cfgT oraOkFailReply (st0, 0, 0) postA).1.records postA.id =
      countRecs st0.records postA.id + 1 ∧
    postA.id ∈ (process_post cfgT oraOkReply
      ((process_post cfgT oraOkFailReply (st0, 0, 0) postA).1, 0, 0) postA).1.processed ∧
    countRecs (process_post cfgT oraOkReply
        ((process_post cfgT oraOkFailReply (st0, 0, 0) postA).1, 0, 0) postA).1.records
      postA.id = countRecs st0.records postA.id + 2 := by
  obtain ⟨h1, h2, h3⟩ := C10_processed_set_growth.2.2.2 cfgT oraOkFailReply oraOkReply
    st0 0 0 0 0 postA [['h']] [['h']] ['o', 'k'] ['o', 'k'] (by decide) rfl (by decide) rfl
  obtain ⟨h4, h5⟩ := h3 (by decide) rfl (by decide) rfl
  exact ⟨h1, h2, h4, h5⟩

/-- Claim C6: `start_bot` with an empty parsed keyword list is rejected
synchronously with an input error, the controller state is untouched (still
stopped), and no worker thread is created. -/
theorem C6_empty_keywords_rejected :
    ∀ (st : AppState) (kwRaw mode intervalStr : Str),
    st.is_running = false →
    parse_keywords kwRaw = [] →
    start_bot st kwRaw mode intervalStr = (st, .inputError) ∧
    (start_bot st kwRaw mode intervalStr).1.is_running = false ∧
    (start_bot st kwRaw mode intervalStr).1.workerCreated = st.workerCreated := by
  intro st kwRaw mode intervalStr h1 h2
  have h : start_bot st kwRaw mode intervalStr = (st, .inputError) := by
    simp [start_bot, h1, h2]
  refine ⟨h, ?_, ?_⟩
  · rw [h]
    exact h1
  · rw [h]

/-- Closed witness for C6: a textbox containing only whitespace and commas
parses to no keywords and is rejected without a state change. -/
theorem C6_witness :
    start_bot ⟨false, false⟩ [' ', ',', ' '] ['h'] ['1'] =
      (⟨false, false⟩, .inputError) := by
  exact (C6_empty_keywords_rejected ⟨false, false⟩ [' ', ',', ' '] ['h'] ['1']
    rfl (by decide)).1

theorem waitGo_noStop : ∀ (rem i : Nat),
    waitLoopGo (fun _ => false) i rem =
      ⟨rem, (List.range' i rem).filter (fun t => decide (t % 60 = 0)), false⟩ := by
  intro rem
  induction rem with
  | zero => intro i; rfl
  | succ n ih =>
    intro i
    simp only [waitLoopGo, ih (i + 1), List.range'_succ, List.filter_cons]
    by_cases h : i % 60 = 0 <;> simp [h]

theorem waitGo_stopAt : ∀ (m i rem : Nat) (stop : Nat → Bool),
    (∀ j, j < m → stop (i + j) = false) → stop (i + m) = true → m < rem →
    waitLoopGo stop i rem =
      ⟨m, (List.range' i m).filter (fun t => decide (t % 60 = 0)), true⟩ := by
  intro m
  induction m with
  | zero =>
    intro i rem stop h0 hm hrem
    cases rem with
    | zero => omega
    | succ n =>
      have hi : stop i = true := by simpa using hm
      simp [waitLoopGo, hi]
  | succ n ih =>
    intro i rem stop h0 hm hrem
    cases rem with
    | zero => omega
    | succ rem2 =>
      have hi : stop i = false := by simpa using h0 0 (Nat.succ_pos n)
      have h0' : ∀ j, j < n → stop (i + 1 + j) = false := by
        intro j hj
        have := h0 (j + 1) (by omega)
        simpa [Nat.add_assoc, Nat.add_comm 1 j] using this
      have hm' : stop (i + 1 + n) = true := by
        have : i + 1 + n = i + (n + 1) := by omega
        rw [this]
        exact hm
      simp only [waitLoopGo, hi, Bool.false_eq_true, if_false,
        ih (i + 1) rem2 stop h0' hm' (by omega), List.range'_succ,
        List.filter_cons]
      by_cases h : i % 60 = 0 <;> simp [h]

/-- Claim C7: the inter-cycle wait runs in 1-second increments, checking the
stop signal before each sleep, so a stop issued just after check `k` is
observed at check `k + 1` after exactly one further 1-second sleep; an
uninterrupted wait performs `delay` one-second sleeps with a heartbeat line
at every 60-second boundary of elapsed waiting; and once the signal is set
the loop proceeds to the finalizer, ending stopped. -/
theorem C7_wait_responsive :
    (∀ (k delay : Nat), k + 1 < delay →
      (waitLoop (fun i => decide (k < i)) delay).stoppedEarly = true ∧
      (waitLoop (fun i => decide (k < i)) delay).sleeps = k + 1) ∧
    (∀ delay : Nat,
      waitLoop (fun _ => false) delay =
        ⟨delay, (List.range delay).filter (fun t => decide (t % 60 = 0)), false⟩) ∧
    (∀ (cycles : Nat → Except Unit Unit) (b : BotRes) (fuel : Nat), 0 < fuel →
      run_loop cycles (fun _ => true) b fuel =
        some ⟨cleanup b, false, .STOPPED, 0⟩) := by
  refine ⟨?_, ?_, ?_⟩
  · intro k delay hk
    have h := waitGo_stopAt (k + 1) 0 delay (fun i => decide (k < i))
      (fun j hj => by simpa using Nat.not_lt.mpr (by omega : j ≤ k))
      (by simp) hk
    unfold waitLoop
    rw [h]
    exact ⟨rfl, rfl⟩
  · intro delay
    unfold waitLoop
    rw [waitGo_noStop delay 0, List.range_eq_range']
  · intro cycles b fuel hf
    cases fuel with
    | zero => omega
    | succ f => simp [run_loop, runLoopGo, finalize]

/-- Closed witness for C7 at concrete inputs: a stop issued after check 0 is
observed after one more sleep; a 130-second wait emits heartbeats at 0, 60
and 120 elapsed seconds; a set signal sends the loop to the finalizer. -/
theorem C7_witness :
    (waitLoop (fun i => decide (0 < i)) 3).stoppedEarly = true ∧
    (waitLoop (fun i => decide (0 < i)) 3).sleeps = 1 ∧
    waitLoop (fun _ => false) 130 =
      ⟨130, [0, 60, 120], false⟩ ∧
    run_loop (fun _ => Except.ok ()) (fun _ => true) ⟨true⟩ 5 =
      some ⟨⟨false⟩, false, .STOPPED, 0⟩ := by
  obtain ⟨h1, h2⟩ := C7_wait_responsive.1 0 3 (by omega)
  refine ⟨h1, h2, ?_, ?_⟩
  · rw [C7_wait_responsive.2.1 130]
    decide
  · have h := C7_wait_responsive.2.2 (fun _ => Except.ok ()) ⟨true⟩ 5 (by omega)
    simpa [cleanup] using h

theorem runGo_skip : ∀ (k n fuel : Nat) (cycles : Nat → Except Unit Unit)
    (stop : Nat → Bool),
    (∀ m, m < k → stop (n + m) = false) →
    (∀ m, m < k → cycles (n + m) = Except.ok ()) →
    k ≤ fuel →
    runLoopGo cycles stop n fuel = runLoopGo cycles stop (n + k) (fuel - k) := by
  intro k
  induction k with
  | zero => intro n fuel cycles stop _ _ _; simp
  | succ j ih =>
    intro n fuel cycles stop hstop hok hk
    cases fuel with
    | zero => omega
    | succ f =>
      have h1 : stop n = false := by simpa using hstop 0 (Nat.succ_pos j)
      have h2 : cycles n = Except.ok () := by simpa using hok 0 (Nat.succ_pos j)
      simp only [runLoopGo, h1, Bool.false_eq_true, if_false, h2]
      have := ih (n + 1) f cycles stop
        (fun m hm => by
          have := hstop (m + 1) (by omega)
          simpa [Nat.add_assoc, Nat.add_comm 1 m] using this)
        (fun m hm => by
          have := hok (m + 1) (by omega)
          simpa [Nat.add_assoc, Nat.add_comm 1 m] using this)
        (by omega)
      rw [this]
      congr 1 <;> omega

/-- Claim C8: whether the loop body exits via the stop signal or via an
uncaught error escaping a cycle, the finalizer runs: the storage connection
is closed by `cleanup` and the controller ends STOPPED; on the error path
the failing cycle ran exactly once and no further cycle runs (the run
terminates, never retried at the cycle level). -/
theorem C8_finalizer_runs :
    ∀ (cycles : Nat → Except Unit Unit) (stop : Nat → Bool) (b : BotRes)
      (fuel n : Nat),
    ((∀ m, m < n → stop m = false) → (∀ m, m < n → cycles m = Except.ok ()) →
      stop n = true → n < fuel →
      run_loop cycles stop b fuel = some ⟨cleanup b, false, .STOPPED, n⟩ ∧
      (cleanup b).connOpen = false) ∧
    ((∀ m, m ≤ n → stop m = false) → (∀ m, m < n → cycles m = Except.ok ()) →
      cycles n = Except.error () → n < fuel →
      run_loop cycles stop b fuel = some ⟨cleanup b, false, .STOPPED, n + 1⟩ ∧
      (cleanup b).connOpen = false) := by
  intro cycles stop b fuel n
  constructor
  · intro hstop hok hn hf
    have h := runGo_skip n 0 fuel cycles stop
      (fun m hm => by simpa using hstop m hm)
      (fun m hm => by simpa using hok m hm) (by omega)
    simp only [Nat.zero_add] at h
    unfold run_loop
    rw [h]
    rcases hfr : fuel - n with _ | f
    · omega
    · simp [runLoopGo, hn, finalize, cleanup]
  · intro hstop hok hn hf
    have h := runGo_skip n 0 fuel cycles stop
      (fun m hm => by simpa using hstop m (Nat.le_of_lt hm))
      (fun m hm => by simpa using hok m hm) (by omega)
    simp only [Nat.zero_add] at h
    unfold run_loop
    rw [h]
    rcases hfr : fuel - n with _ | f
    · omega
    · simp [runLoopGo, hstop n (Nat.le_refl n), hn, finalize, cleanup]

/-- Closed witness for C8: a stop observed at the second check, and an error
in the second cycle, both end with the connection closed and state
STOPPED. -/
theorem C8_witness :
    run_loop (fun _ => Except.ok ()) (fun i => decide (i = 1)) ⟨true⟩ 5 =
      some ⟨⟨false⟩, false, .STOPPED, 1⟩ ∧
    run_loop (fun i => if i = 1 then Except.error () else Except.ok ())
        (fun _ => false) ⟨true⟩ 5 =
      some ⟨⟨false⟩, false, .STOPPED, 2⟩ := by
  constructor
  · have h := (C8_finalizer_runs (fun _ => Except.ok ()) (fun i => decide (i = 1))
      ⟨true⟩ 5 1).1
      (by intro m hm; have : m = 0 := by omega
          subst this; rfl)
      (fun m hm => rfl) (by decide) (by omega)
    simpa [cleanup] using h.1
  · have h := (C8_finalizer_runs (fun i => if i = 1 then Except.error () else Except.ok ())
      (fun _ => false) ⟨true⟩ 5 1).2
      (fun m hm => rfl)
      (by intro m hm; have : m = 0 := by omega
          subst this; rfl)
      rfl (by omega)
    simpa [cleanup] using h.1

/-- Claim C9: the bulk-clear operation is idempotent: one call leaves both
tables empty, a second immediate call leaves them empty again, and being a
total function it raises nothing (the Python handler catches storage errors
itself). -/
theorem C9_clear_db_idempotent :
    ∀ db : Db,
    (clear_db db).interactions = [] ∧
    (clear_db db).performance_metrics = [] ∧
    clear_db (clear_db db) = clear_db db ∧
    (clear_db (clear_db db)).interactions = [] ∧
    (clear_db (clear_db db)).performance_metrics = [] := by
  intro db
  exact ⟨rfl, rfl, rfl, rfl, rfl⟩

end Reddit
